import Mathlib

/-!
Verification of the generation-task orchestration layer of the ai-studio
repository.  The definitions below are shallow embeddings of the TypeScript
source: JavaScript strings become `String`/`List Char`, absent or `undefined`
values become `Option`, JS truthiness is modelled explicitly, and the bounded
polling loops become structurally recursive functions on an explicit fuel that
mirrors the source's loop counter.
-/

namespace AIStudio

/-! ## JavaScript value helpers

JS string truthiness: `undefined` and `""` are falsy, every other string is
truthy.  `a || b` returns `a` when truthy, else `b`. -/

def truthyStr : Option String → Bool
  | some s => !(s == "")
  | none => false

/-- JS `a || b` for string-or-undefined values. -/
def orOptStr : Option String → Option String → Option String
  | some s, b => if s = "" then b else some s
  | none, b => b

/-- JS `a || d` where the fallback `d` is a (truthy) string literal. -/
def jsStrOrD : Option String → String → String
  | some s, d => if s = "" then d else s
  | none, d => d

/-! ## Prompt sanitisation (`sanitizePrompt` in
`src/app/api/generate-image/route.ts`, and the 1000-char variant in the
generate-video route).

The source is
`prompt.replace(/[<>]/g, '').replace(/[\x00-\x1F]/g, '').slice(0, N).trim()`.
We model JS strings as `List Char`; the two regex replaces are character
filters, `slice(0, N)` is `take N`, and `String.prototype.trim` removes the
JS WhiteSpace/LineTerminator characters from both ends. -/

/-- Characters kept by `.replace(/[<>]/g, '')`. -/
def promptKeepAngle (c : Char) : Bool := !(c == '<' || c == '>')

/-- Characters kept by `.replace(/[\x00-\x1F]/g, '')`. -/
def promptKeepCtl (c : Char) : Bool := decide (0x1F < c.toNat)

/-- The WhiteSpace and LineTerminator set stripped by `String.prototype.trim`
(ECMA-262: TAB, LF, VT, FF, CR, SP, NBSP, ZWNBSP, the Zs space separators,
LS and PS). -/
def jsWhitespace (c : Char) : Bool :=
  let n := c.toNat
  decide ((0x09 ≤ n ∧ n ≤ 0x0D) ∨ n = 0x20 ∨ n = 0xA0 ∨ n = 0x1680 ∨
    (0x2000 ≤ n ∧ n ≤ 0x200A) ∨ n = 0x2028 ∨ n = 0x2029 ∨ n = 0x202F ∨
    n = 0x205F ∨ n = 0x3000 ∨ n = 0xFEFF)

/-- `String.prototype.trim`: drop JS whitespace from the front, then from the
back. -/
def jsTrim (l : List Char) : List Char :=
  List.rdropWhile jsWhitespace (List.dropWhile jsWhitespace l)

/-- `sanitizePrompt` with the length cap as a parameter (the image route uses
2000, the video route 1000). -/
def sanitizePromptChars (maxLen : Nat) (p : List Char) : List Char :=
  jsTrim (((p.filter promptKeepAngle).filter promptKeepCtl).take maxLen)

/-- `sanitizePrompt` from `src/app/api/generate-image/route.ts`
(`.slice(0, 2000)`). -/
def sanitizePrompt (p : List Char) : List Char := sanitizePromptChars 2000 p

/-- `sanitizePrompt` from the generate-video route (`.slice(0, 1000)`). -/
def sanitizePromptVideo (p : List Char) : List Char := sanitizePromptChars 1000 p

/-- `String.prototype.trim` on `String`, for routes that only trim. -/
def jsTrimStr (s : String) : String := String.mk (jsTrim s.toList)

/-! ## The task pollers

`api.pollVideoStatus` in `src/services/api.ts` is
`for (i = 0; i < maxPolls; i++) { result = check(...); if SUCCESS && videoUrl
return url; if FAIL throw ApiError('Video generation failed', 500); sleep }`
followed by `throw ApiError('Video generation timeout', 408)`.
We feed it an oracle `feed : Nat → StatusResult` giving the response of the
i-th status query, and additionally return the number of status queries
performed.  The fuel argument is `maxPolls - i`, so the recursion mirrors the
for-loop exactly. -/

/-- The `StatusResult` payload returned by `checkVideoStatus`. -/
structure StatusResult where
  status : String
  videoUrl : Option String
deriving DecidableEq, Repr

/-- Result of `pollVideoStatus`: either the url, or a thrown `ApiError`
(message, HTTP status). -/
inductive PollResult
  | ok (url : String)
  | apiError (message : String) (status : Nat)
deriving DecidableEq, Repr

def pollVideoLoop (feed : Nat → StatusResult) (i : Nat) :
    Nat → PollResult × Nat
  | 0 => (.apiError "Video generation timeout" 408, i)
  | fuel + 1 =>
    let r := feed i
    if r.status = "SUCCESS" ∧ truthyStr r.videoUrl = true then
      (.ok (r.videoUrl.getD ""), i + 1)
    else if r.status = "FAIL" then
      (.apiError "Video generation failed" 500, i + 1)
    else
      pollVideoLoop feed (i + 1) fuel

/-- `api.pollVideoStatus` (default `maxPolls = 60`), returning the outcome and
the number of status queries issued. -/
def pollVideoStatus (feed : Nat → StatusResult) (maxPolls : Nat) :
    PollResult × Nat :=
  pollVideoLoop feed 0 maxPolls

/-! `startPolling` in
`src/features/ai-generator/hooks/use-ai-generator.ts`: the client-side loop.
Each tick fetches `/api/video-status`, increments `pollCount`, and either
finishes (`SUCCESS` with truthy `videoUrl`, or `FAIL`), or re-schedules itself
while `pollCount < maxPolls`, else reports the timeout toast.  The fuel tracks
`maxPolls - pollCount` (the inner `fuel = 0` arm is unreachable under that
invariant and only makes the recursion structural). -/

/-- The parsed body of a `/api/video-status` response as read by the hook. -/
structure ClientStatusData where
  success : Bool
  status : String
  videoUrl : Option String
deriving DecidableEq, Repr

/-- Terminal outcome of `startPolling` (the toast shown). -/
inductive ClientOutcome
  | videoReady (url : String)
  | videoFailed
  | videoTimeout
deriving DecidableEq, Repr

def startPollingLoop (resp : Nat → ClientStatusData) (maxPolls : Nat) :
    Nat → Nat → ClientOutcome × Nat
  | fuel, count =>
    let d := resp count
    let c := count + 1
    if d.success = true ∧ d.status = "SUCCESS" ∧ truthyStr d.videoUrl = true then
      (.videoReady (d.videoUrl.getD ""), c)
    else if d.success = true ∧ d.status = "FAIL" then
      (.videoFailed, c)
    else if c < maxPolls then
      match fuel with
      | 0 => (.videoTimeout, c)
      | f + 1 => startPollingLoop resp maxPolls f c
    else (.videoTimeout, c)

/-- `startPolling(taskId, videoId)` with its `maxPolls = 60`,
returning the outcome and the final `pollCount`. -/
def startPolling (resp : Nat → ClientStatusData) (maxPolls : Nat) :
    ClientOutcome × Nat :=
  startPollingLoop resp maxPolls maxPolls 0

/-- The scripted provider feed `Processing, Processing, Succeeded(locator)`
(the status stays `Succeeded` once reached). -/
def scriptFeed (locator : String) : Nat → StatusResult := fun i =>
  if i < 2 then ⟨"PROCESSING", none⟩ else ⟨"SUCCESS", some locator⟩

/-- The same script as seen by the client hook. -/
def scriptClient (locator : String) : Nat → ClientStatusData := fun i =>
  if i < 2 then ⟨true, "PROCESSING", none⟩ else ⟨true, "SUCCESS", some locator⟩

/-! ## Status routes

`GET /api/video-status` (edge variant, `src/app/api/video-status/route.ts`):
`status = data.status || data.task_status || 'PROCESSING'`; on
SUCCESS/completed/succeeded it answers `success: true` with
`videoUrl = data.video_url || data.video || data.data?.video_url` (possibly
absent); on FAIL/failed it answers FAIL; anything else PROCESSING.

The `errors.ts`-based variant of the same route instead throws
`createApiError('Video completed but no URL returned')` (an
`ApplicationError` with code API_ERROR and HTTP status 502, rendered by
`errorResponse` with the same message) when the succeeded-looking payload
yields no truthy url. -/

/-- Response of a status route: the normalised success body, or the error
response produced from a thrown/returned error (HTTP status, message). -/
inductive StatusRouteResult
  | success (status : String) (videoUrl : Option String)
  | failure (httpStatus : Nat) (error : String)
deriving DecidableEq, Repr

/-- Provider payload fields probed by the edge video-status route. -/
structure VideoStatusPayload where
  status : Option String
  task_status : Option String
  video_url : Option String
  video : Option String
  dataVideoUrl : Option String
deriving DecidableEq, Repr

/-- Raw status of the edge route:
`data.status || data.task_status || 'PROCESSING'`. -/
def videoStatusRaw (p : VideoStatusPayload) : String :=
  jsStrOrD (orOptStr p.status p.task_status) "PROCESSING"

/-- The edge `GET /api/video-status` handler after a 2xx provider response. -/
def videoStatusRouteEdge (p : VideoStatusPayload) : StatusRouteResult :=
  let status := videoStatusRaw p
  if status = "SUCCESS" ∨ status = "completed" ∨ status = "succeeded" then
    .success "SUCCESS" (orOptStr p.video_url (orOptStr p.video p.dataVideoUrl))
  else if status = "FAIL" ∨ status = "failed" then
    .success "FAIL" none
  else
    .success "PROCESSING" none

/-- Provider payload fields probed by the `errors.ts`-based video-status
route (`data.status || data.data?.status`, and the four video url shapes). -/
structure VideoStatusPayloadZ where
  status : Option String
  dataStatus : Option String
  video : Option String
  video_url : Option String
  dataVideo : Option String
  dataVideoUrl : Option String
deriving DecidableEq, Repr

def videoStatusRawZ (p : VideoStatusPayloadZ) : String :=
  jsStrOrD (orOptStr p.status p.dataStatus) "PROCESSING"

/-- Url extraction of the `errors.ts`-based route:
`data.video || data.video_url || data.data?.video || data.data?.video_url`. -/
def videoStatusUrlZ (p : VideoStatusPayloadZ) : Option String :=
  orOptStr p.video (orOptStr p.video_url (orOptStr p.dataVideo p.dataVideoUrl))

/-- The `errors.ts`-based `GET /api/video-status` handler after a 2xx
provider response: a succeeded-looking status without a truthy url throws
`createApiError('Video completed but no URL returned')`, which
`errorResponse` renders as a 502 API_ERROR with that message. -/
def videoStatusRouteZ (p : VideoStatusPayloadZ) : StatusRouteResult :=
  let status := videoStatusRawZ p
  if status = "SUCCESS" ∨ status = "completed" ∨ status = "succeeded" then
    if truthyStr (videoStatusUrlZ p) = false then
      .failure 502 "Video completed but no URL returned"
    else
      .success "SUCCESS" (videoStatusUrlZ p)
  else if status = "FAIL" ∨ status = "failed" ∨ status = "error" then
    .success "FAIL" none
  else
    .success "PROCESSING" none

/-! ### Canonical status vocabularies (claim C6)

The per-route raw-status → canonical-status maps, read off the `if` chains
of the two cited handlers. -/

/-- Raw-status mapping of the edge video-status route. -/
def videoStatusCanonical (raw : String) : String :=
  if raw = "SUCCESS" ∨ raw = "completed" ∨ raw = "succeeded" then "SUCCESS"
  else if raw = "FAIL" ∨ raw = "failed" then "FAIL"
  else "PROCESSING"

/-- Raw-status mapping of `GET /api/image-status` (`data.status`;
`succeeded` → SUCCESS, `failed`/`canceled` → FAIL, anything else — including
an absent status — → PROCESSING). -/
def imageStatusCanonical (status : Option String) : String :=
  if status = some "succeeded" then "SUCCESS"
  else if status = some "failed" ∨ status = some "canceled" then "FAIL"
  else "PROCESSING"

/-! ## `withRetry` and the API client (claim C5)

`apiFetch` converts every failure into a thrown `ApiError` carrying an HTTP
status (0 for network-level failures).  `withRetry(fn, maxRetries = 3)`
re-invokes `fn` on failure unless the error is a 401, and after the loop
rethrows the last error.  `api.generateImage` wraps its submission
`apiFetch` in `withRetry`; `api.generateVideo` calls `apiFetch` once.
The oracle `fn i` gives the outcome of the i-th attempt; we also return the
number of attempts performed. -/

/-- Outcome of one `apiFetch` call. -/
inductive ApiFetchOutcome (α : Type)
  | ok (a : α)
  | err (status : Nat)
deriving DecidableEq, Repr

/-- Result of `withRetry`: the value, a rethrown `ApiError` status, or the
degenerate `throw lastError` with `lastError = null`. -/
inductive RetryResult (α : Type)
  | ok (a : α)
  | threw (status : Nat)
  | threwNull
deriving DecidableEq, Repr

def withRetryLoop (fn : Nat → ApiFetchOutcome α) (i : Nat)
    (lastError : Option Nat) : Nat → RetryResult α × Nat
  | 0 =>
    (match lastError with
     | some s => (.threw s, i)
     | none => (.threwNull, i))
  | fuel + 1 =>
    match fn i with
    | .ok a => (.ok a, i + 1)
    | .err s =>
      if s = 401 then (.threw s, i + 1)
      else withRetryLoop fn (i + 1) (some s) fuel

/-- `withRetry(fn, maxRetries)` returning the result and the number of
attempts made. -/
def withRetry (fn : Nat → ApiFetchOutcome α) (maxRetries : Nat) :
    RetryResult α × Nat :=
  withRetryLoop fn 0 none maxRetries

/-- `api.generateImage`: the submission `apiFetch` wrapped in
`withRetry(·, 3)`. -/
def generateImage (fn : Nat → ApiFetchOutcome α) : RetryResult α × Nat :=
  withRetry fn 3

/-- `api.generateVideo`: a single submission `apiFetch`, no retry wrapper. -/
def generateVideo (fn : Nat → ApiFetchOutcome α) : ApiFetchOutcome α × Nat :=
  (fn 0, 1)

/-! ## JavaScript numbers and URI encoding

Helpers for the submission routes: `Number(...)` applied to pieces of the
`size` string (modelled for non-negative decimal literals, with `""` → 0 and
anything else → NaN), template interpolation of possibly-`undefined` values,
and `encodeURIComponent`. -/

/-- `Number(s)` for a string piece: `none` is NaN. -/
def jsNumber (s : String) : Option Int :=
  if s = "" then some 0
  else (s.toNat?).map Int.ofNat

/-- Render a possibly-missing, possibly-NaN number into a template string the
way JS does (`undefined` / `NaN`). -/
def jsRenderNum : Option (Option Int) → String
  | none => "undefined"
  | some none => "NaN"
  | some (some v) => toString v

/-- `size.split('x').map(Number)` followed by the `[width, height]`
destructuring. -/
def jsSizeParts (size : String) : Option (Option Int) × Option (Option Int) :=
  let parts := (size.splitOn "x").map jsNumber
  (parts.get? 0, parts.get? 1)

/-- UTF-8 bytes of a character, for percent-encoding. -/
def utf8Bytes (c : Char) : List Nat :=
  let n := c.toNat
  if n < 0x80 then [n]
  else if n < 0x800 then [0xC0 + n / 0x40, 0x80 + n % 0x40]
  else if n < 0x10000 then
    [0xE0 + n / 0x1000, 0x80 + (n / 0x40) % 0x40, 0x80 + n % 0x40]
  else
    [0xF0 + n / 0x40000, 0x80 + (n / 0x1000) % 0x40, 0x80 + (n / 0x40) % 0x40,
      0x80 + n % 0x40]

def uriHexDigit (n : Nat) : Char :=
  Char.ofNat (if n < 10 then 48 + n else 55 + n)

def percentByte (b : Nat) : String :=
  String.mk ['%', uriHexDigit (b / 16), uriHexDigit (b % 16)]

/-- The characters `encodeURIComponent` leaves unescaped. -/
def uriUnreserved (c : Char) : Bool :=
  c.isAlphanum || c == '-' || c == '_' || c == '.' || c == '!' || c == '~' ||
    c == '*' || c == Char.ofNat 39 || c == '(' || c == ')'

def encodeURIComponent (s : String) : String :=
  String.join (s.toList.map (fun c =>
    if uriUnreserved c then String.mk [c]
    else String.join ((utf8Bytes c).map percentByte)))

/-! ## The registry-based `POST /api/generate-image` (claims C4 and C8)

The route looks the provider up in `IMAGE_PROVIDERS` (unknown providers fall
back to the keyless `pollinations` entry), answers 401 `requiresKey` before
any fetch when the entry requires a key and none was supplied, serves
Pollinations by URL construction alone, and for the remaining providers
performs the one outbound fetch — falling back to a Pollinations URL in a
`success: true` response (`fallback: true`) when that fetch throws. -/

structure ImageProviderEntry where
  name : String
  requiresKey : Bool
deriving DecidableEq, Repr

/-- The `IMAGE_PROVIDERS` registry (with the
`IMAGE_PROVIDERS[provider] || IMAGE_PROVIDERS.pollinations` fallback). -/
def imageProviders (provider : String) : ImageProviderEntry :=
  if provider = "pollinations" then ⟨"Pollinations.ai", false⟩
  else if provider = "zhipu" then ⟨"Zhipu AI", true⟩
  else if provider = "openai" then ⟨"OpenAI", true⟩
  else if provider = "stability" then ⟨"Stability AI", true⟩
  else if provider = "replicate" then ⟨"Replicate", true⟩
  else ⟨"Pollinations.ai", false⟩

/-- `IMAGE_PROVIDERS.pollinations.generateUrl(prompt, width, height, seed)`. -/
def pollinationsGenerateUrl (prompt : String)
    (width height : Option (Option Int)) (seed : Nat) : String :=
  "https://image.pollinations.ai/prompt/" ++ encodeURIComponent prompt ++
    "?width=" ++ jsRenderNum width ++ "&height=" ++ jsRenderNum height ++
    "&nologo=true&seed=" ++ toString seed ++ "&model=flux&enhance=true"

/-- The request body of the registry-based route. -/
structure RegistryImageRequest where
  prompt : Option String
  size : String
  provider : String
  apiKey : Option String
deriving DecidableEq, Repr

/-- Fields probed when extracting the image from a 2xx provider response. -/
structure RegistryImagePayload where
  openaiUrl : Option String
  stabilityBase64 : Option String
  genericUrl : Option String
  genericB64 : Option String
deriving DecidableEq, Repr

/-- What the single outbound fetch of the route would produce. -/
inductive RegistryFetchOutcome
  | threw
  | resp (ok : Bool) (status : Nat) (payload : RegistryImagePayload)
deriving DecidableEq, Repr

/-- A response of the registry-based route. -/
inductive RegistryImageResponse
  | err (status : Nat) (message : String) (requiresKey : Bool)
  | okImage (image : String) (fallback : Bool)
deriving DecidableEq, Repr

/-- Fallback URL built from the raw prompt and parsed size (used both for the
keyless Pollinations path and the catch-block fallback). -/
def registryFallbackImage (req : RegistryImageRequest) (seed : Nat) : String :=
  pollinationsGenerateUrl (req.prompt.getD "") (jsSizeParts req.size).1
    (jsSizeParts req.size).2 seed

/-- Per-provider image extraction from a 2xx payload. -/
def registryExtractImage (provider : String) (p : RegistryImagePayload) :
    Option String :=
  if provider = "openai" then p.openaiUrl
  else if provider = "stability" then
    match p.stabilityBase64 with
    | some b => some ("data:image/png;base64," ++ b)
    | none => none
  else orOptStr p.genericUrl p.genericB64

/-- The registry-based `POST /api/generate-image` handler.  The second
component records whether the outbound fetch was attempted. -/
def registryImagePost (req : RegistryImageRequest) (seed : Nat)
    (fetch : RegistryFetchOutcome) : RegistryImageResponse × Bool :=
  if truthyStr req.prompt = false then
    (.err 400 "Prompt is required" false, false)
  else
    let cfg := imageProviders req.provider
    if cfg.requiresKey = true ∧ truthyStr req.apiKey = false then
      (.err 401 ("API key required for " ++ cfg.name ++ ". Add it in Settings.")
        true, false)
    else if req.provider = "pollinations" ∨ truthyStr req.apiKey = false then
      (.okImage (registryFallbackImage req seed) false, false)
    else
      match fetch with
      | .threw => (.okImage (registryFallbackImage req seed) true, true)
      | .resp ok status payload =>
        if ok = false then
          (.err status (cfg.name ++ " API error: " ++ toString status) false,
            true)
        else if req.provider = "replicate" then
          (.err 400 "Replicate requires polling. Use Pollinations for direct results."
            false, true)
        else
          match registryExtractImage req.provider payload with
          | some url =>
            if url = "" then (.err 500 "No image returned from API" false, true)
            else (.okImage url false, true)
          | none => (.err 500 "No image returned from API" false, true)

/-! ## The rate-limited `POST /api/generate-image`
(`src/app/api/generate-image/route.ts`, claim C4)

`checkRateLimit(ip)` runs first and mutates the per-caller counter; only then
are the prompt and the provider-specific API key validated. -/

structure RateEntry where
  count : Nat
  resetTime : Nat
deriving DecidableEq, Repr

/-- `checkRateLimit`: returns whether the request is allowed together with the
caller's updated rate-limit entry. -/
def checkRateLimit (limit window now : Nat) (entry : Option RateEntry) :
    Bool × Option RateEntry :=
  match entry with
  | none => (true, some ⟨1, now + window⟩)
  | some e =>
    if now > e.resetTime then (true, some ⟨1, now + window⟩)
    else if e.count ≥ limit then (false, some e)
    else (true, some ⟨e.count + 1, e.resetTime⟩)

/-- `validateApiKey(provider, key)` from the rate-limited route. -/
def validateApiKey (provider key : String) : Bool :=
  if key.length < 10 then false
  else if provider = "openai" then key.startsWith "sk-"
  else if provider = "zhipu" then decide (key.length ≥ 20)
  else if provider = "stability" then
    key.startsWith "sk-" || decide (key.length ≥ 20)
  else if provider = "replicate" then
    key.startsWith "r8_" || decide (key.length ≥ 20)
  else if provider = "fal" then decide (key.length ≥ 20)
  else if provider = "gemini" then
    key.startsWith "AI" || decide (key.length ≥ 20)
  else true

/-- The providers handled by the switch of the rate-limited route. -/
def rateLimitedRouteProviders : List String :=
  ["zhipu", "openai", "stability", "replicate", "fal", "gemini"]

/-- Outcome of the rate-limited route up to its outbound fetch (the messages
of the per-provider 401 responses are elided). -/
inductive RateLimitedRouteOutcome
  | rateLimited
  | validationError
  | authRequired
  | unknownProvider
  | proceedOutbound (provider : String)
deriving DecidableEq, Repr

/-- The rate-limited `POST /api/generate-image` handler up to the provider
fetch, threading the caller's rate-limit entry. -/
def rateLimitedImagePost (now : Nat) (entry : Option RateEntry)
    (prompt : Option String) (provider : String) (apiKey : Option String) :
    RateLimitedRouteOutcome × Option RateEntry :=
  let rl := checkRateLimit 10 60000 now entry
  if rl.1 = false then (.rateLimited, rl.2)
  else if truthyStr prompt = false ∨ jsTrimStr (prompt.getD "") = "" then
    (.validationError, rl.2)
  else if provider ∈ rateLimitedRouteProviders then
    if truthyStr apiKey = false ∨
        validateApiKey provider (apiKey.getD "") = false then
      (.authRequired, rl.2)
    else (.proceedOutbound provider, rl.2)
  else (.unknownProvider, rl.2)

/-! ## Prompt flow of the trim-only image route (claim C7)

The multi-provider variant of `POST /api/generate-image` validates the prompt
only for non-emptiness and sends `cleanPrompt = prompt.trim()` in the outbound
provider request bodies — no angle-bracket or control-character stripping and
no length cap. -/

/-- The `cleanPrompt` that reaches the outbound provider calls of the
trim-only route, or `none` when the route rejects the request (missing/empty
prompt, or missing API key for the keyed branches). -/
def trimOnlyRouteOutboundPrompt (prompt : Option String)
    (apiKey : Option String) : Option (List Char) :=
  match prompt with
  | none => none
  | some s =>
    if s = "" then none
    else if jsTrim s.toList = [] then none
    else if truthyStr apiKey = false then none
    else some (jsTrim s.toList)

/-! ## The zod schemas (`src/features/ai-generator/schemas.ts`) -/

/-- The `prompt` chain of `generateImageSchema`:
`.min(1).max(2000)` validation on the raw string, then `.transform(trim)`. -/
def generateImageSchemaPrompt (p : List Char) : Except String (List Char) :=
  if p.length < 1 then .error "Prompt is required"
  else if 2000 < p.length then
    .error "Prompt must be less than 2000 characters"
  else .ok (jsTrim p)

/-- The `duration` chain of `generateVideoSchema`:
`.int().min(5).max(10).default(5)` — an absent field gets the default, an
out-of-range value is rejected, never clamped. -/
def generateVideoSchemaDuration (d : Option Int) : Except String Int :=
  match d with
  | none => .ok 5
  | some v =>
    if v < 5 then .error "Minimum duration is 5 seconds"
    else if 10 < v then .error "Maximum duration is 10 seconds"
    else .ok v

/-! ## The edge `POST /api/generate-video` (claims C8 and C9)

`const validDuration = Math.min(Math.max(Number(duration) || 5, 1), 10)` —
note that `Number(duration) || 5` sends both non-numeric input and `0` to the
default `5`.  The zhipu branch classifies a thrown fetch as a 502 and probes
`data.id || data.task_id || data.data?.id` for the task handle. -/

/-- `Number(duration) || 5` (`none` models a NaN-producing input). -/
def jsNumberOrDefault (v : Option Int) (d : Int) : Int :=
  match v with
  | none => d
  | some x => if x = 0 then d else x

/-- The duration clamp of the edge generate-video route. -/
def videoValidDuration (duration : Option Int) : Int :=
  min (max (jsNumberOrDefault duration 5) 1) 10

/-- Task-handle fields of a 2xx zhipu submission response. -/
structure ZhipuSubmitPayload where
  id : Option String
  task_id : Option String
  dataId : Option String
deriving DecidableEq, Repr

inductive ZhipuFetchOutcome
  | threw
  | resp (ok : Bool) (status : Nat) (payload : ZhipuSubmitPayload)
      (rawError : String)
deriving DecidableEq, Repr

inductive VideoSubmitResponse
  | err (status : Nat) (message : String)
  | okTask (taskId : String)
deriving DecidableEq, Repr

/-- The zhipu branch of the edge generate-video route, from the fetch on. -/
def videoZhipuSubmit (f : ZhipuFetchOutcome) : VideoSubmitResponse :=
  match f with
  | .threw => .err 502 "Failed to connect to Zhipu AI. Check your connection."
  | .resp ok status payload rawError =>
    if ok = false then
      .err 400
        (if status = 401 then
          "Invalid Zhipu AI API key. Check your key at open.bigmodel.cn"
        else if status = 404 then "Zhipu AI video endpoint not found."
        else if status = 429 then "Zhipu AI rate limit exceeded. Please wait."
        else rawError)
    else
      let taskId := orOptStr payload.id (orOptStr payload.task_id payload.dataId)
      if truthyStr taskId = false then
        .err 500 "No task ID returned from Zhipu AI"
      else .okTask (taskId.getD "")

/-- Constant all-Processing feeds, used to witness C1. -/
def constProcessingFeed : Nat → StatusResult := fun _ => ⟨"PROCESSING", none⟩

def constProcessingClient : Nat → ClientStatusData :=
  fun _ => ⟨true, "PROCESSING", none⟩

/-- The always-failing submission oracle (network-level `ApiError` with
status 0), used to refute C5. -/
def alwaysFailFetch : Nat → ApiFetchOutcome String := fun _ => .err 0

/-! ## Helper lemmas -/

/-! ### Facts about `jsTrim` and `sanitizePrompt` -/

theorem mem_of_mem_jsTrim {c : Char} {l : List Char} (h : c ∈ jsTrim l) :
    c ∈ l := by
  have h1 : c ∈ List.dropWhile jsWhitespace l :=
    (List.IsPrefix.subset (List.rdropWhile_prefix _ _)) h
  exact (List.IsSuffix.subset (List.dropWhile_suffix _)) h1

theorem length_jsTrim_le (l : List Char) : (jsTrim l).length ≤ l.length :=
  Nat.le_trans
    (List.IsPrefix.length_le (List.rdropWhile_prefix _ _))
    (List.IsSuffix.length_le (List.dropWhile_suffix _))

/-- The front of a trimmed list carries no JS whitespace. -/
theorem dropWhile_jsTrim (l : List Char) :
    List.dropWhile jsWhitespace (jsTrim l) = jsTrim l := by
  obtain ⟨t, ht⟩ := List.rdropWhile_prefix jsWhitespace
    (List.dropWhile jsWhitespace l)
  cases hr : jsTrim l with
  | nil => simp
  | cons x xs =>
    rw [jsTrim] at hr
    rw [hr] at ht
    have hd : List.dropWhile jsWhitespace l = x :: (xs ++ t) := by
      rw [← ht]; simp
    have h0 : 0 < (List.dropWhile jsWhitespace l).length := by
      rw [hd]; simp
    have hx : ¬jsWhitespace x = true := by
      have h1 := List.dropWhile_get_zero_not (p := jsWhitespace) l h0
      rw [List.get_of_eq hd] at h1
      simpa using h1
    exact List.dropWhile_cons_of_neg hx

/-- JS `trim` is idempotent. -/
theorem jsTrim_jsTrim (l : List Char) : jsTrim (jsTrim l) = jsTrim l := by
  rw [jsTrim, dropWhile_jsTrim]
  rw [jsTrim, List.rdropWhile_idempotent]

theorem mem_sanitizePromptChars {maxLen : Nat} {c : Char} {p : List Char}
    (h : c ∈ sanitizePromptChars maxLen p) :
    promptKeepAngle c = true ∧ promptKeepCtl c = true := by
  have h1 := mem_of_mem_jsTrim h
  have h2 := List.mem_of_mem_take h1
  have h3 := List.mem_filter.mp h2
  have h4 := List.mem_filter.mp h3.1
  exact ⟨h4.2, h3.2⟩

theorem length_sanitizePromptChars_le (maxLen : Nat) (p : List Char) :
    (sanitizePromptChars maxLen p).length ≤ maxLen := by
  exact Nat.le_trans (length_jsTrim_le _) (List.length_take_le maxLen _)

theorem jsTrim_sanitizePromptChars (maxLen : Nat) (p : List Char) :
    jsTrim (sanitizePromptChars maxLen p) = sanitizePromptChars maxLen p := by
  rw [sanitizePromptChars, jsTrim_jsTrim]

/-- Sanitising an already sanitised prompt changes nothing. -/
theorem sanitizePromptChars_idem (maxLen : Nat) (p : List Char) :
    sanitizePromptChars maxLen (sanitizePromptChars maxLen p)
      = sanitizePromptChars maxLen p := by
  have hq : ∀ c ∈ sanitizePromptChars maxLen p,
      promptKeepAngle c = true ∧ promptKeepCtl c = true :=
    fun _ hc => mem_sanitizePromptChars hc
  have h1 : (sanitizePromptChars maxLen p).filter promptKeepAngle
      = sanitizePromptChars maxLen p :=
    List.filter_eq_self.mpr (fun c hc => (hq c hc).1)
  have h2 : (sanitizePromptChars maxLen p).filter promptKeepCtl
      = sanitizePromptChars maxLen p :=
    List.filter_eq_self.mpr (fun c hc => (hq c hc).2)
  calc sanitizePromptChars maxLen (sanitizePromptChars maxLen p)
      = jsTrim ((sanitizePromptChars maxLen p).take maxLen) := by
        rw [sanitizePromptChars, h1, h2]
    _ = jsTrim (sanitizePromptChars maxLen p) := by
        rw [List.take_of_length_le (length_sanitizePromptChars_le maxLen p)]
    _ = sanitizePromptChars maxLen p := jsTrim_sanitizePromptChars maxLen p

/-! ### Poller stepping lemmas -/

theorem pollVideoLoop_step (feed : Nat → StatusResult) (i fuel : Nat)
    (h : (feed i).status = "PROCESSING") :
    pollVideoLoop feed i (fuel + 1) = pollVideoLoop feed (i + 1) fuel := by
  simp [pollVideoLoop, h]

theorem pollVideoLoop_success (feed : Nat → StatusResult) (i fuel : Nat)
    (hs : (feed i).status = "SUCCESS")
    (hu : truthyStr (feed i).videoUrl = true) :
    pollVideoLoop feed i (fuel + 1) = (.ok ((feed i).videoUrl.getD ""), i + 1) := by
  simp [pollVideoLoop, hs, hu]

theorem pollVideoLoop_processing (feed : Nat → StatusResult)
    (h : ∀ j, (feed j).status = "PROCESSING") :
    ∀ fuel i, pollVideoLoop feed i fuel
      = (.apiError "Video generation timeout" 408, i + fuel) := by
  intro fuel
  induction fuel with
  | zero => intro i; simp [pollVideoLoop]
  | succ f ih =>
    intro i
    rw [pollVideoLoop_step feed i f (h i), ih (i + 1)]
    congr 1
    omega

theorem startPollingLoop_step (resp : Nat → ClientStatusData)
    (maxPolls count fuel : Nat) (h : (resp count).status = "PROCESSING")
    (hc : count + 1 < maxPolls) :
    startPollingLoop resp maxPolls (fuel + 1) count
      = startPollingLoop resp maxPolls fuel (count + 1) := by
  simp [startPollingLoop, h, hc]

theorem startPollingLoop_success (resp : Nat → ClientStatusData)
    (maxPolls count fuel : Nat) (hok : (resp count).success = true)
    (hs : (resp count).status = "SUCCESS")
    (hu : truthyStr (resp count).videoUrl = true) :
    startPollingLoop resp maxPolls fuel count
      = (.videoReady ((resp count).videoUrl.getD ""), count + 1) := by
  unfold startPollingLoop
  simp [hok, hs, hu]

theorem startPollingLoop_processing (resp : Nat → ClientStatusData)
    (maxPolls : Nat) (h : ∀ j, (resp j).status = "PROCESSING") :
    ∀ fuel count, maxPolls - count = fuel → count < maxPolls →
      startPollingLoop resp maxPolls fuel count = (.videoTimeout, maxPolls) := by
  intro fuel
  induction fuel with
  | zero => intro count hf hc; omega
  | succ f ih =>
    intro count hf hc
    by_cases hc2 : count + 1 < maxPolls
    · rw [startPollingLoop_step resp maxPolls count f (h count) hc2]
      exact ih (count + 1) (by omega) hc2
    · have hone : count + 1 = maxPolls := by omega
      simp [startPollingLoop, h count, hc2, hone]

theorem withRetryLoop_count_le (fn : Nat → ApiFetchOutcome α) :
    ∀ fuel i lastError, (withRetryLoop fn i lastError fuel).2 ≤ i + fuel := by
  intro fuel
  induction fuel with
  | zero =>
    intro i lastError
    cases lastError <;> simp [withRetryLoop]
  | succ f ih =>
    intro i lastError
    cases hfn : fn i with
    | ok a => simp [withRetryLoop, hfn]
    | err s =>
      by_cases hs : s = 401
      · simp [withRetryLoop, hfn, hs]
      · have := ih (i + 1) (some s)
        simp [withRetryLoop, hfn, hs]
        omega

theorem withRetryLoop_count_ge_start (fn : Nat → ApiFetchOutcome α) :
    ∀ fuel i lastError, i ≤ (withRetryLoop fn i lastError fuel).2 := by
  intro fuel
  induction fuel with
  | zero =>
    intro i lastError
    cases lastError <;> simp [withRetryLoop]
  | succ f ih =>
    intro i lastError
    cases hfn : fn i with
    | ok a => simp [withRetryLoop, hfn]
    | err s =>
      by_cases hs : s = 401
      · simp [withRetryLoop, hfn, hs]
      · have h2 := ih (i + 1) (some s)
        simp [withRetryLoop, hfn, hs]
        omega

theorem withRetry_count_ge_one (fn : Nat → ApiFetchOutcome α) :
    1 ≤ (withRetry fn 3).2 := by
  rw [withRetry]
  cases hfn : fn 0 with
  | ok a => simp [withRetryLoop, hfn]
  | err s =>
    by_cases hs : s = 401
    · simp [withRetryLoop, hfn, hs]
    · have hstep : withRetryLoop fn 0 none 3 = withRetryLoop fn 1 (some s) 2 := by
        simp [withRetryLoop, hfn, hs]
      rw [hstep]
      exact withRetryLoop_count_ge_start fn 2 1 (some s)

/-! ## Claim theorems -/

/-- C10: the prompt sanitizer is idempotent — for every prompt `p`,
`sanitizePrompt(sanitizePrompt(p)) = sanitizePrompt(p)` (for both the
2000-char image variant and the 1000-char video variant), so sanitizing an
already-sanitized prompt changes nothing. -/
theorem spec_c10_sanitize_idempotent (p : List Char) :
    sanitizePrompt (sanitizePrompt p) = sanitizePrompt p
    ∧ sanitizePromptVideo (sanitizePromptVideo p) = sanitizePromptVideo p :=
  ⟨sanitizePromptChars_idem 2000 p, sanitizePromptChars_idem 1000 p⟩

/-- C7 (amended): prompts that pass through `sanitizePrompt` are fully
sanitized before the outbound call — no angle brackets, no control characters
(U+0000–U+001F), no leading or trailing JS whitespace, and length at most the
kind's maximum (2000 image / 1000 video), over-long prompts being truncated;
but the routes that validate with only a trim or with `generateImageSchema`
forward the trimmed prompt otherwise unchanged (the schema rejects over-long
prompts instead of truncating), so angle brackets and control characters can
reach outbound provider calls there. -/
theorem spec_c7_amended (p : List Char) :
    (∀ c ∈ sanitizePrompt p, promptKeepAngle c = true ∧ promptKeepCtl c = true)
    ∧ (sanitizePrompt p).length ≤ 2000
    ∧ jsTrim (sanitizePrompt p) = sanitizePrompt p
    ∧ (∀ c ∈ sanitizePromptVideo p,
        promptKeepAngle c = true ∧ promptKeepCtl c = true)
    ∧ (sanitizePromptVideo p).length ≤ 1000
    ∧ jsTrim (sanitizePromptVideo p) = sanitizePromptVideo p
    ∧ (∀ s q, trimOnlyRouteOutboundPrompt (some s) (some "sk-test-key-123") = some q →
        q = jsTrim s.toList)
    ∧ (∀ q, generateImageSchemaPrompt p = .ok q → q = jsTrim p) := by
  refine ⟨fun c hc => mem_sanitizePromptChars hc,
    length_sanitizePromptChars_le 2000 p,
    jsTrim_sanitizePromptChars 2000 p,
    fun c hc => mem_sanitizePromptChars hc,
    length_sanitizePromptChars_le 1000 p,
    jsTrim_sanitizePromptChars 1000 p, ?_, ?_⟩
  · intro s q hq
    simp only [trimOnlyRouteOutboundPrompt] at hq
    split_ifs at hq with h1 h2 h3
    exact (Option.some.inj hq).symm
  · intro q hq
    simp only [generateImageSchemaPrompt] at hq
    split_ifs at hq with g1 g2
    exact (Except.ok.inj hq).symm

/-- C7 witness: evaluating the amended claim at the one-character prompt
`"a"` and at the trim-only route fed `"ab"`. -/
theorem spec_c7_amended_witness :
    (promptKeepAngle 'a' = true ∧ promptKeepCtl 'a' = true)
    ∧ (sanitizePrompt ['a']).length ≤ 2000
    ∧ ['a', 'b'] = jsTrim "ab".toList :=
  ⟨(spec_c7_amended ['a']).1 'a' (by decide),
    (spec_c7_amended ['a']).2.1,
    (spec_c7_amended ['a']).2.2.2.2.2.2.1 "ab" ['a', 'b'] (by decide)⟩

/-- C7 counterexample: the trim-only multi-provider image route forwards the
prompt `"<x>"` to its outbound provider call still containing an angle
bracket, so the claim that every prompt reaching an outbound call is free of
angle brackets is false. -/
theorem spec_c7_counterexample :
    trimOnlyRouteOutboundPrompt (some "<x>") (some "sk-test-key-123")
      = some ['<', 'x', '>']
    ∧ '<' ∈ ['<', 'x', '>'] := by decide

/-- C1: a poller (`pollVideoStatus` with `maxPolls = 60`, and the client
hook's `startPolling` with the same bound) that is fed only
Processing-equivalent statuses on every tick performs exactly the attempt
bound of 60 status queries and terminates in the timeout outcome (the 408
"Video generation timeout" error / the timeout toast), which is distinct from
the Failed outcome; being a total function of its fuel, it never loops
indefinitely. -/
theorem spec_c1_poll_timeout (feed : Nat → StatusResult)
    (resp : Nat → ClientStatusData)
    (hf : ∀ i, (feed i).status = "PROCESSING")
    (hr : ∀ i, (resp i).status = "PROCESSING") :
    pollVideoStatus feed 60 = (.apiError "Video generation timeout" 408, 60)
    ∧ startPolling resp 60 = (.videoTimeout, 60)
    ∧ PollResult.apiError "Video generation timeout" 408
        ≠ PollResult.apiError "Video generation failed" 500 := by
  refine ⟨?_, ?_, by decide⟩
  · rw [pollVideoStatus, pollVideoLoop_processing feed hf 60 0]
  · exact startPollingLoop_processing resp 60 hr 60 0 rfl (by omega)

/-- C1 witness: both pollers fed the constant Processing feed time out after
exactly 60 queries. -/
theorem spec_c1_poll_timeout_witness :
    pollVideoStatus constProcessingFeed 60
      = (.apiError "Video generation timeout" 408, 60)
    ∧ startPolling constProcessingClient 60 = (.videoTimeout, 60) :=
  ⟨(spec_c1_poll_timeout constProcessingFeed constProcessingClient
      (fun _ => rfl) (fun _ => rfl)).1,
   (spec_c1_poll_timeout constProcessingFeed constProcessingClient
      (fun _ => rfl) (fun _ => rfl)).2.1⟩

/-- C2 (amended): for every non-empty asset locator, both pollers fed the
scripted sequence `Processing, Processing, Succeeded(locator)` issue exactly
3 status queries and terminate with that locator.  (The empty locator is
JS-falsy and is skipped by the `result.videoUrl` truthiness check, so the
original unrestricted claim fails — see the counterexample.) -/
theorem spec_c2_script_roundtrip (locator : String) (h : locator ≠ "") :
    pollVideoStatus (scriptFeed locator) 60 = (.ok locator, 3)
    ∧ startPolling (scriptClient locator) 60 = (.videoReady locator, 3) := by
  have hu : truthyStr (some locator) = true := by
    simp [truthyStr, h]
  constructor
  · have e1 : pollVideoLoop (scriptFeed locator) 0 60
        = pollVideoLoop (scriptFeed locator) 1 59 :=
      pollVideoLoop_step _ 0 59 rfl
    have e2 : pollVideoLoop (scriptFeed locator) 1 59
        = pollVideoLoop (scriptFeed locator) 2 58 :=
      pollVideoLoop_step _ 1 58 rfl
    have e3 : pollVideoLoop (scriptFeed locator) 2 58
        = (.ok ((scriptFeed locator 2).videoUrl.getD ""), 3) :=
      pollVideoLoop_success _ 2 57 rfl hu
    rw [pollVideoStatus, e1, e2, e3]
    rfl
  · have e1 : startPollingLoop (scriptClient locator) 60 60 0
        = startPollingLoop (scriptClient locator) 60 59 1 :=
      startPollingLoop_step _ 60 0 59 rfl (by omega)
    have e2 : startPollingLoop (scriptClient locator) 60 59 1
        = startPollingLoop (scriptClient locator) 60 58 2 :=
      startPollingLoop_step _ 60 1 58 rfl (by omega)
    have e3 : startPollingLoop (scriptClient locator) 60 58 2
        = (.videoReady ((scriptClient locator 2).videoUrl.getD ""), 3) :=
      startPollingLoop_success _ 60 2 58 rfl rfl hu
    rw [startPolling, e1, e2, e3]
    rfl

/-- C2 witness: the scripted round trip at the locator
`"https://cdn/x.png"`. -/
theorem spec_c2_script_roundtrip_witness :
    pollVideoStatus (scriptFeed "https://cdn/x.png") 60
      = (.ok "https://cdn/x.png", 3)
    ∧ startPolling (scriptClient "https://cdn/x.png") 60
      = (.videoReady "https://cdn/x.png", 3) :=
  spec_c2_script_roundtrip "https://cdn/x.png" (by decide)

/-- C2 counterexample: with the empty-string locator — still an asset locator
string — the scripted sequence does not terminate at the third tick with that
locator: the truthiness check skips the success branch and both pollers run
to the 60-query timeout. -/
theorem spec_c2_counterexample :
    pollVideoStatus (scriptFeed "") 60
      = (.apiError "Video generation timeout" 408, 60)
    ∧ pollVideoStatus (scriptFeed "") 60 ≠ (.ok "", 3)
    ∧ startPolling (scriptClient "") 60 = (.videoTimeout, 60) := by decide

/-- C3 (amended): in the `errors.ts`-based video-status route, a
succeeded-equivalent status (`SUCCESS` / `completed` / `succeeded`) whose
payload yields no truthy asset locator produces the 502 error
"Video completed but no URL returned", and a success result with status
`SUCCESS` always carries a truthy (non-empty) locator.  The plain edge
variant of the route, however, returns a success result whose locator may be
missing — see the counterexample. -/
theorem spec_c3_no_empty_locator (p : VideoStatusPayloadZ)
    (hs : videoStatusRawZ p = "SUCCESS" ∨ videoStatusRawZ p = "completed" ∨
      videoStatusRawZ p = "succeeded") :
    (truthyStr (videoStatusUrlZ p) = false →
      videoStatusRouteZ p = .failure 502 "Video completed but no URL returned")
    ∧ (∀ u, videoStatusRouteZ p = .success "SUCCESS" u →
        truthyStr u = true) := by
  constructor
  · intro hu
    simp [videoStatusRouteZ, hs, hu]
  · intro u hu
    by_cases ht : truthyStr (videoStatusUrlZ p) = false
    · simp [videoStatusRouteZ, hs, ht] at hu
    · have ht2 : truthyStr (videoStatusUrlZ p) = true := by
        cases hb : truthyStr (videoStatusUrlZ p)
        · exact absurd hb ht
        · rfl
      simp [videoStatusRouteZ, hs, ht] at hu
      rw [← hu]
      exact ht2

/-- C3 witness: a payload whose status is `succeeded` but which carries no
video url field yields the 502 protocol error in the checked route. -/
theorem spec_c3_no_empty_locator_witness :
    videoStatusRouteZ ⟨some "succeeded", none, none, none, none, none⟩
      = .failure 502 "Video completed but no URL returned" :=
  (spec_c3_no_empty_locator ⟨some "succeeded", none, none, none, none, none⟩
    (by decide)).1 (by decide)

/-- C3 counterexample: the edge variant of the video-status route, fed the
same `succeeded`-with-no-url payload, answers `success` with a missing
locator instead of the protocol error, so the claim is false for that status
operation. -/
theorem spec_c3_counterexample :
    videoStatusRouteEdge ⟨some "succeeded", none, none, none, none⟩
      = .success "SUCCESS" none
    ∧ videoStatusRouteEdge ⟨some "succeeded", none, none, none, none⟩
      ≠ .failure 502 "Video completed but no URL returned" := by decide

/-- C6 (amended): both cited status operations map every raw status totally
into the canonical 3-state model — but with per-route vocabularies that are
narrower than claimed: the video-status route sends `SUCCESS` / `completed` /
`succeeded` to Succeeded and only `FAIL` / `failed` to Failed, while the
image-status route sends only `succeeded` to Succeeded and `failed` /
`canceled` to Failed; every other value (including an absent status, and in
particular `canceled` and `error` for video, `completed`, `SUCCESS` and
`error` for image) maps to Processing, and no raw status yields a fourth
canonical state. -/
theorem spec_c6_status_vocabulary (s : String) (o : Option String) :
    (videoStatusCanonical s = "SUCCESS" ∨ videoStatusCanonical s = "FAIL" ∨
      videoStatusCanonical s = "PROCESSING")
    ∧ (videoStatusCanonical s = "SUCCESS" ↔
        s = "SUCCESS" ∨ s = "completed" ∨ s = "succeeded")
    ∧ (videoStatusCanonical s = "FAIL" ↔ s = "FAIL" ∨ s = "failed")
    ∧ (imageStatusCanonical o = "SUCCESS" ∨ imageStatusCanonical o = "FAIL" ∨
        imageStatusCanonical o = "PROCESSING")
    ∧ (imageStatusCanonical o = "SUCCESS" ↔ o = some "succeeded")
    ∧ (imageStatusCanonical o = "FAIL" ↔
        o = some "failed" ∨ o = some "canceled") := by
  unfold videoStatusCanonical imageStatusCanonical
  refine ⟨?_, ?_, ?_, ?_, ?_, ?_⟩
  · split_ifs <;> simp
  · split_ifs with h1 h2
    · simp [h1]
    · simp [h1]
    · simp [h1]
  · split_ifs with h1 h2
    · rcases h1 with h | h | h <;> subst h <;> simp
    · simp [h2]
    · simp [h2]
  · split_ifs <;> simp
  · split_ifs with h1 h2
    · simp [h1]
    · simp [h1]
    · simp [h1]
  · split_ifs with h1 h2
    · subst h1; simp
    · simp [h2]
    · simp [h2]

/-- C6 counterexample: `canceled` and `error` do not map to Failed in the
video-status route (they fall through to Processing), and
`SUCCESS` does not map to Succeeded in the image-status route, refuting the
claimed uniform vocabulary. -/
theorem spec_c6_counterexample :
    videoStatusCanonical "canceled" = "PROCESSING"
    ∧ videoStatusCanonical "canceled" ≠ "FAIL"
    ∧ videoStatusCanonical "error" = "PROCESSING"
    ∧ imageStatusCanonical (some "SUCCESS") = "PROCESSING"
    ∧ imageStatusCanonical (some "error") = "PROCESSING" := by decide

/-- C4 (amended): when the selected provider requires a key and none is
supplied, both submission routes answer 401 with `requiresKey` before any
outbound provider call (the outbound-fetch flag is `false` / the outcome
never reaches `proceedOutbound`); the registry-based route has no rate-limit
counter at all, but in the rate-limited route the rejection still counts
against the caller's rate limit, because `checkRateLimit` runs — and mutates
the counter — before the credential check. -/
theorem spec_c4_auth_before_network (req : RegistryImageRequest) (seed : Nat)
    (fetch : RegistryFetchOutcome) (now : Nat) (entry : Option RateEntry)
    (prompt : Option String) (provider : String)
    (hp : truthyStr req.prompt = true)
    (hkey : (imageProviders req.provider).requiresKey = true)
    (hnokey : truthyStr req.apiKey = false)
    (hallow : (checkRateLimit 10 60000 now entry).1 = true)
    (hp2 : truthyStr prompt = true)
    (ht2 : jsTrimStr (prompt.getD "") ≠ "")
    (hprov : provider ∈ rateLimitedRouteProviders) :
    registryImagePost req seed fetch
      = (.err 401 ("API key required for " ++ (imageProviders req.provider).name
          ++ ". Add it in Settings.") true, false)
    ∧ rateLimitedImagePost now entry prompt provider none
      = (.authRequired, (checkRateLimit 10 60000 now entry).2) := by
  constructor
  · simp [registryImagePost, hp, hkey, hnokey]
  · simp [rateLimitedImagePost, hallow, hp2, ht2, hprov,
      show truthyStr (none : Option String) = false from rfl]

/-- C4 witness: a zhipu request with prompt but no key is rejected 401 by
both routes without the fetch being reached, and the rate-limited route's
counter entry comes out as `count = 1` even though the caller started with no
entry. -/
theorem spec_c4_auth_before_network_witness :
    registryImagePost ⟨some "a red fox", "1024x1024", "zhipu", none⟩ 0 .threw
      = (.err 401 "API key required for Zhipu AI. Add it in Settings." true,
        false)
    ∧ rateLimitedImagePost 0 none (some "hi") "zhipu" none
      = (.authRequired, some ⟨1, 60000⟩) :=
  ⟨(spec_c4_auth_before_network ⟨some "a red fox", "1024x1024", "zhipu", none⟩
      0 .threw 0 none (some "hi") "zhipu" (by decide) (by decide) (by decide)
      (by decide) (by decide) (by decide) (by decide)).1,
   (spec_c4_auth_before_network ⟨some "a red fox", "1024x1024", "zhipu", none⟩
      0 .threw 0 none (some "hi") "zhipu" (by decide) (by decide) (by decide)
      (by decide) (by decide) (by decide) (by decide)).2⟩

/-- C4 counterexample: in the rate-limited image route the missing-credential
rejection does increment the caller's rate-limit counter — a caller with no
prior entry ends up with `count = 1` — so the claim that the rejection does
not count against the rate limit is false. -/
theorem spec_c4_counterexample :
    rateLimitedImagePost 0 none (some "hi") "zhipu" none
      = (.authRequired, some ⟨1, 60000⟩)
    ∧ some (RateEntry.mk 1 60000) ≠ (none : Option RateEntry) := by decide

/-- C5 (amended): a single invocation of `api.generateImage` performs between
1 and `maxRetries = 3` provider submission attempts — it retries failed
submissions (any thrown `ApiError` other than a 401), returning after the
first attempt only on success or a 401 — while `api.generateVideo` performs
exactly one submission attempt. -/
theorem spec_c5_retry_bound (fn : Nat → ApiFetchOutcome String) (a : String) :
    (withRetry fn 3).2 ≤ 3
    ∧ 1 ≤ (withRetry fn 3).2
    ∧ (fn 0 = .ok a → withRetry fn 3 = (.ok a, 1))
    ∧ (fn 0 = .err 401 → withRetry fn 3 = (.threw 401, 1))
    ∧ generateImage fn = withRetry fn 3
    ∧ generateVideo fn = (fn 0, 1) := by
  refine ⟨?_, ?_, ?_, ?_, rfl, rfl⟩
  · simpa using withRetryLoop_count_le fn 3 0 none
  · exact withRetry_count_ge_one fn
  · intro h; simp [withRetry, withRetryLoop, h]
  · intro h; simp [withRetry, withRetryLoop, h]

/-- C5 witness: a submission that succeeds on the first attempt makes exactly
one provider call. -/
theorem spec_c5_retry_bound_witness :
    withRetry (fun _ => ApiFetchOutcome.ok "img") 3
      = (.ok "img", 1)
    ∧ (withRetry (fun _ => ApiFetchOutcome.ok "img") 3).2 ≤ 3 :=
  ⟨(spec_c5_retry_bound (fun _ => ApiFetchOutcome.ok "img") "img").2.2.1 rfl,
   (spec_c5_retry_bound (fun _ => ApiFetchOutcome.ok "img") "img").1⟩

/-- C5 counterexample: one `api.generateImage` invocation whose submission
keeps failing performs 3 provider submission attempts, not at most one —
`withRetry` automatically re-issues the billable submission call. -/
theorem spec_c5_counterexample :
    generateImage alwaysFailFetch = (.threw 0, 3)
    ∧ (3 : Nat) ≠ 1 := by decide

/-- C8 (amended): when the outbound submission fetch throws, the edge
generate-video route classifies the failure as a 502 connection error, but
the registry-based image route instead substitutes the Pollinations fallback
URL in a `success: true` response flagged `fallback: true`. -/
theorem spec_c8_fetch_failure (req : RegistryImageRequest) (seed : Nat)
    (hp : truthyStr req.prompt = true)
    (hprov : req.provider ≠ "pollinations")
    (hkeyok : truthyStr req.apiKey = true) :
    videoZhipuSubmit .threw
      = .err 502 "Failed to connect to Zhipu AI. Check your connection."
    ∧ registryImagePost req seed .threw
      = (.okImage (registryFallbackImage req seed) true, true) := by
  refine ⟨rfl, ?_⟩
  simp [registryImagePost, hp, hprov, hkeyok]

/-- C8 witness: a keyed openai request whose fetch throws. -/
theorem spec_c8_fetch_failure_witness :
    videoZhipuSubmit .threw
      = .err 502 "Failed to connect to Zhipu AI. Check your connection."
    ∧ registryImagePost ⟨some "cat", "1024x1024", "openai", some "sk-key-1234"⟩
        9 .threw
      = (.okImage (registryFallbackImage
          ⟨some "cat", "1024x1024", "openai", some "sk-key-1234"⟩ 9) true,
        true) :=
  ⟨(spec_c8_fetch_failure ⟨some "cat", "1024x1024", "openai", some "sk-key-1234"⟩
      9 (by decide) (by decide) (by decide)).1,
   (spec_c8_fetch_failure ⟨some "cat", "1024x1024", "openai", some "sk-key-1234"⟩
      9 (by decide) (by decide) (by decide)).2⟩

/-- C8 counterexample: a concrete keyed submission whose outbound fetch
throws gets a `success` response whose asset locator is the substituted
Pollinations fallback URL — not a classified error — so the claim is false. -/
theorem spec_c8_counterexample :
    (registryImagePost ⟨some "cat", "1024x1024", "zhipu", some "key-123456789-abc"⟩
        42 .threw).1
      = .okImage (registryFallbackImage
          ⟨some "cat", "1024x1024", "zhipu", some "key-123456789-abc"⟩ 42) true := by
  rfl

/-- C9 (amended): the edge generate-video route clamps numeric durations into
[1, 10] — values above 10 become 10; values below 1 become 1 except that `0`,
being JS-falsy, gets the default 5, as does non-numeric input — whereas
`generateVideoSchema` does not clamp at all: it accepts exactly the integers
in [5, 10] (defaulting an absent field to 5) and rejects every other numeric
duration with a validation error. -/
theorem spec_c9_duration (d : Option Int) (x : Int) :
    1 ≤ videoValidDuration d
    ∧ videoValidDuration d ≤ 10
    ∧ (d = none → videoValidDuration d = 5)
    ∧ (d = some x → 1 ≤ x → x ≤ 10 → videoValidDuration d = x)
    ∧ (d = some x → 10 < x → videoValidDuration d = 10)
    ∧ (d = some x → x < 1 → x ≠ 0 → videoValidDuration d = 1)
    ∧ (d = some 0 → videoValidDuration d = 5)
    ∧ (generateVideoSchemaDuration none = .ok 5)
    ∧ (5 ≤ x → x ≤ 10 → generateVideoSchemaDuration (some x) = .ok x)
    ∧ (x < 5 → generateVideoSchemaDuration (some x)
        = .error "Minimum duration is 5 seconds")
    ∧ (10 < x → generateVideoSchemaDuration (some x)
        = .error "Maximum duration is 10 seconds") := by
  refine ⟨?_, ?_, ?_, ?_, ?_, ?_, ?_, rfl, ?_, ?_, ?_⟩
  · unfold videoValidDuration jsNumberOrDefault
    cases d with
    | none => simp
    | some v =>
      by_cases hv : v = 0
      all_goals simp [hv, le_max_iff, min_def]
      all_goals omega
  · unfold videoValidDuration
    exact min_le_right _ _
  · intro h; subst h; rfl
  · intro h h1 h10; subst h
    unfold videoValidDuration jsNumberOrDefault
    have hx0 : x ≠ 0 := by omega
    simp only [hx0, if_false]
    rw [max_eq_left h1, min_eq_left h10]
  · intro h h10; subst h
    unfold videoValidDuration jsNumberOrDefault
    have hx0 : x ≠ 0 := by omega
    simp only [hx0, if_false]
    rw [min_eq_right]
    rw [le_max_iff]
    left; omega
  · intro h h1 h0; subst h
    unfold videoValidDuration jsNumberOrDefault
    simp only [h0, if_false]
    rw [max_eq_right (by omega), min_eq_left (by omega)]
  · intro h; subst h; rfl
  · intro h5 h10
    simp only [generateVideoSchemaDuration]
    rw [if_neg (by omega), if_neg (by omega)]
  · intro h5
    simp only [generateVideoSchemaDuration]
    rw [if_pos h5]
  · intro h10
    simp only [generateVideoSchemaDuration]
    rw [if_neg (by omega), if_pos h10]

/-- C9 witness: duration 20 is clamped to 10 and duration 7 is accepted
unchanged by the schema. -/
theorem spec_c9_duration_witness :
    videoValidDuration (some 20) = 10
    ∧ generateVideoSchemaDuration (some 7) = .ok 7 :=
  ⟨(spec_c9_duration (some 20) 20).2.2.2.2.1 rfl (by omega),
   (spec_c9_duration (some 20) 7).2.2.2.2.2.2.2.2.1 (by omega) (by omega)⟩

/-- C9 counterexample: the numeric duration 3 is rejected by
`generateVideoSchema` with a validation error instead of being clamped to
the minimum, and the numeric duration 0 — below the claimed minimum 1 —
becomes the default 5, not the minimum, so the claim is false. -/
theorem spec_c9_counterexample :
    generateVideoSchemaDuration (some 3)
      = .error "Minimum duration is 5 seconds"
    ∧ videoValidDuration (some 0) = 5
    ∧ (5 : Int) ≠ 1 :=
  ⟨rfl, by norm_num [videoValidDuration, jsNumberOrDefault], by norm_num⟩

end AIStudio
